import Mathlib

/-!
Verification of the Prompt Enhancement Workflow Engine
(repository `veo3-workflow-agents`, package `langraph_agents`).

This file gives a shallow embedding of the engine:
* the state record (`prompt_enhancer_state.py`),
* the six stage functions (`prompt_enhancer_nodes.py`),
* the graph driver / entry point (`prompt_enhancer_graph.py`),
and proves the frozen claims about them.

External collaborators (the LLM capability and the persistence sink) are
modelled as oracles: each call site receives the outcome of its call
(`Except String result` — an exception message or a value), exactly one
outcome per textual call site, matching the order in which the source
performs the calls.  Python floats are modelled by `ℚ` (every numeric
literal in the source — 0.5, 0.7, 0.2 — is exact), Python ints by `ℤ`,
Python `dict`s of JSON data by association lists.
-/

namespace Veo3

/-- JSON values, modelling Python `Dict[str, Any]` payloads (`json_prompt`,
the `config` field of `JSONPromptOutput`, the fallback document). -/
inductive Json where
  | str : String → Json
  | num : ℚ → Json
  | bool : Bool → Json
  | null : Json
  | arr : List Json → Json
  | obj : List (String × Json) → Json

/-- A JSON object: the top-level shape of `json_prompt` (a Python dict). -/
abbrev JsonObj := List (String × Json)

/-- `kvs` has key `k` (Python `k in d`). -/
def objHasKey (kvs : JsonObj) (k : String) : Bool :=
  kvs.any (fun p => p.1 == k)

/- ---------------------------------------------------------------------
Python semantics helpers
--------------------------------------------------------------------- -/

/-- Characters removed by Python `str.strip()` with no argument
(ASCII whitespace; the unicode extras never occur in the literals of this
code base). -/
def pyWhitespace (c : Char) : Bool :=
  c = ' ' || c = '\t' || c = '\n' || c = '\r' || c = '\x0b' || c = '\x0c'

/-- Python `s.strip()`. -/
def pyStrip (s : String) : String :=
  ⟨((s.data.dropWhile pyWhitespace).reverse.dropWhile pyWhitespace).reverse⟩

/-- Python `x or d` where `x : Optional[str]`: `None` and `""` are falsy. -/
def pyOrS (x : Option String) (d : String) : String :=
  match x with
  | none => d
  | some s => if s = "" then d else s

/-- Python `x or d` on two strings (`""` is falsy). -/
def pyOrSS (x d : String) : String :=
  if x = "" then d else x

/-- Python `x or d` where `x : Optional[float]`: `None` and `0.0` are falsy. -/
def pyOrQ (x : Option ℚ) (d : ℚ) : ℚ :=
  match x with
  | none => d
  | some q => if q = 0 then d else q

/-- Python `x or d` where `x : Optional[dict]`: `None` and `{ }` are falsy. -/
def pyOrObj (x : Option JsonObj) (d : JsonObj) : JsonObj :=
  match x with
  | none => d
  | some o => if o.isEmpty then d else o

/-- Python `repr` of a list of strings, as interpolated by an f-string:
`['json', 'xml']`. -/
def pyListRepr (l : List String) : String :=
  "[" ++ String.intercalate ", " (l.map (fun s => "'" ++ s ++ "'")) ++ "]"

/- ---------------------------------------------------------------------
Data model (`prompt_enhancer_state.py`)
--------------------------------------------------------------------- -/

/-- `CameraConfig` with its field defaults. -/
structure CameraConfig where
  movement : String := "static"
  angle : String := "medium_shot"
  lens : String := "50mm_equivalent"
deriving DecidableEq

/-- `StyleConfig` with its field defaults. -/
structure StyleConfig where
  aesthetic : String := "photorealistic"
  rendering : String := "high_quality"
  color_palette : Option String := none
deriving DecidableEq

/-- `ConfigSettings` with its field defaults. -/
structure ConfigSettings where
  duration_seconds : Int := 8
  aspect_ratio : String := "16:9"
  generate_audio : Bool := true
  camera : CameraConfig := {}
  style : StyleConfig := {}
deriving DecidableEq

/-- `VideoPromptState`: the single state record threaded through the
pipeline.  `config` has `default_factory=ConfigSettings`, hence the
`some {}` default on an `Optional` field. -/
structure VideoPromptState where
  original_prompt : String
  enhanced_concept : Option String := none
  json_prompt : Option JsonObj := none
  xml_prompt : Option String := none
  natural_language_prompt : Option String := none
  negative_prompt : Option String := none
  config : Option ConfigSettings := some {}
  enhancement_notes : List String := []
  current_step : String := "initialized"
  enhancement_quality_score : Option ℚ := none

/- ---------------------------------------------------------------------
Keyword-based config extraction (`_extract_config_from_concept`)
--------------------------------------------------------------------- -/

/-- `pat` occurs as a contiguous sublist of the haystack. -/
def hasSubList (pat : List Char) : List Char → Bool
  | [] => pat.isEmpty
  | c :: t => pat.isPrefixOf (c :: t) || hasSubList pat t

/-- Python `kw in text` (substring containment). -/
def hasKw (text kw : String) : Bool :=
  hasSubList kw.data text.data

/-- Python `s.lower()` (character-wise; agrees with `str.lower` on the
ASCII keywords this code matches against). -/
def pyLower (s : String) : String :=
  ⟨s.data.map Char.toLower⟩

/-- `_extract_config_from_concept(concept, current_config)`: a
deterministic keyword pass over the lower-cased concept.  The source
mutates the config in place; here each `if/elif` chain is one functional
update.  `current_config or ConfigSettings()` — a Pydantic model is always
truthy, so only `None` is replaced by the default. -/
def extract_config_from_concept (concept : String)
    (current_config : Option ConfigSettings) : ConfigSettings :=
  let config := current_config.getD {}
  let concept_lower := pyLower concept
  -- duration hints
  let config :=
    if hasKw concept_lower "quick" || hasKw concept_lower "brief" then
      { config with duration_seconds := 5 }
    else if hasKw concept_lower "long" || hasKw concept_lower "extended" then
      { config with duration_seconds := 12 }
    else config
  -- camera movement hints
  let config :=
    if hasKw concept_lower "zoom" then
      { config with camera := { config.camera with movement := "zoom_in" } }
    else if hasKw concept_lower "pan" then
      { config with camera := { config.camera with movement := "pan" } }
    else if hasKw concept_lower "static" then
      { config with camera := { config.camera with movement := "static" } }
    else config
  -- style hints
  let config :=
    if hasKw concept_lower "cinematic" then
      { config with style := { config.style with aesthetic := "cinematic" } }
    else if hasKw concept_lower "documentary" then
      { config with style := { config.style with aesthetic := "documentary" } }
    else if hasKw concept_lower "commercial" then
      { config with style := { config.style with aesthetic := "commercial" } }
    else config
  config

/- ---------------------------------------------------------------------
XML serialization (`xml.etree.ElementTree` as used by `generate_xml_format`)
--------------------------------------------------------------------- -/

/-- Character replacement of `ElementTree._escape_cdata` (element text):
`&`, `<`, `>` become entities, everything else passes through. -/
def repCdata (c : Char) : List Char :=
  if c = '&' then ['&', 'a', 'm', 'p', ';']
  else if c = '<' then ['&', 'l', 't', ';']
  else if c = '>' then ['&', 'g', 't', ';']
  else [c]

/-- Character replacement of `ElementTree._escape_attrib` (attribute
values): additionally escapes `"` and the whitespace controls. -/
def repAttrib (c : Char) : List Char :=
  if c = '&' then ['&', 'a', 'm', 'p', ';']
  else if c = '<' then ['&', 'l', 't', ';']
  else if c = '>' then ['&', 'g', 't', ';']
  else if c = '"' then ['&', 'q', 'u', 'o', 't', ';']
  else if c = '\r' then ['&', '#', '1', '3', ';']
  else if c = '\n' then ['&', '#', '1', '0', ';']
  else if c = '\t' then ['&', '#', '0', '9', ';']
  else [c]

/-- Apply a per-character replacement over a character list. -/
def escapeWith (rep : Char → List Char) : List Char → List Char
  | [] => []
  | c :: t => rep c ++ escapeWith rep t

/-- `_escape_cdata` on a string. -/
def escape_cdata (s : String) : String :=
  ⟨escapeWith repCdata s.data⟩

/-- `_escape_attrib` on a string. -/
def escape_attrib (s : String) : String :=
  ⟨escapeWith repAttrib s.data⟩

/-- What a conforming XML parser does to a raw attribute value: expand the
character and entity references that `_escape_attrib` can emit. -/
def unescapeChars : List Char → List Char
  | [] => []
  | c :: rest =>
    if c = '&' then
      match rest with
      | 'a' :: 'm' :: 'p' :: ';' :: r => '&' :: unescapeChars r
      | 'l' :: 't' :: ';' :: r => '<' :: unescapeChars r
      | 'g' :: 't' :: ';' :: r => '>' :: unescapeChars r
      | 'q' :: 'u' :: 'o' :: 't' :: ';' :: r => '"' :: unescapeChars r
      | '#' :: '1' :: '3' :: ';' :: r => '\r' :: unescapeChars r
      | '#' :: '1' :: '0' :: ';' :: r => '\n' :: unescapeChars r
      | '#' :: '0' :: '9' :: ';' :: r => '\t' :: unescapeChars r
      | r => c :: unescapeChars r
    else c :: unescapeChars rest

/-- `unescapeChars` on a string. -/
def unescape_attrib (s : String) : String :=
  ⟨unescapeChars s.data⟩

/-- A character admissible in an XML 1.0 document
(`#x9 | #xA | #xD | [#x20-#xD7FF] | [#xE000-#xFFFD] | [#x10000-#x10FFFF]`;
Lean's `Char` already excludes the surrogate block). -/
def xmlValidChar (c : Char) : Bool :=
  c = '\t' || c = '\n' || c = '\r' ||
  (0x20 ≤ c.val && c.val ≤ 0xD7FF) ||
  (0xE000 ≤ c.val && c.val ≤ 0xFFFD) ||
  (0x10000 ≤ c.val && c.val ≤ 0x10FFFF)

/-- Model of `defusedxml.ElementTree.fromstring` succeeding on a document
produced by the serializer below: the serializer emits markup that is
well-formed by construction (fixed names, quoted and escaped attribute
values, escaped character data), so the expat parser accepts the document
exactly when every character is admissible in XML 1.0 — `ET.tostring`
does not reject control characters, `fromstring` does. -/
def safeParseOk (s : String) : Bool :=
  s.data.all xmlValidChar

/-- The XML declaration emitted by `generate_xml_format`. -/
def xmlDecl : String := "<?xml version=\"1.0\" encoding=\"UTF-8\"?>"

/-- One serialized attribute, as `ElementTree` writes it:
a space, the name, `="`, the escaped value, `"`. -/
def attrStr (name val : String) : String :=
  " " ++ name ++ "=\"" ++ escape_attrib val ++ "\""

/-- The `<description>` text: `(enhanced_concept or original_prompt or "").strip()`. -/
def xmlDescText (st : VideoPromptState) : String :=
  pyStrip (pyOrS st.enhanced_concept (pyOrSS st.original_prompt ""))

/-- The `<negative>` text: `(negative_prompt or "blurry, low quality, distorted").strip()`. -/
def xmlNegText (st : VideoPromptState) : String :=
  pyStrip (pyOrS st.negative_prompt "blurry, low quality, distorted")

/-- `ET.tostring(root, encoding="unicode")` for the tree built by
`generate_xml_format`: root `<prompt>` with children `<description>`,
`<negative>`, `<camera movement angle lens>`, `<style aesthetic rendering>`,
serialized without any inter-element whitespace. -/
def xmlBody (st : VideoPromptState) : String :=
  let config := st.config.getD {}
  "<prompt>"
    ++ "<description>" ++ escape_cdata (xmlDescText st) ++ "</description>"
    ++ "<negative>" ++ escape_cdata (xmlNegText st) ++ "</negative>"
    ++ "<camera"
      ++ attrStr "movement" config.camera.movement
      ++ attrStr "angle" config.camera.angle
      ++ attrStr "lens" config.camera.lens
      ++ ">" ++ "Standard camera setup with natural framing" ++ "</camera>"
    ++ "<style"
      ++ attrStr "aesthetic" config.style.aesthetic
      ++ attrStr "rendering" config.style.rendering
      ++ ">" ++ "Clean, professional visual style with natural lighting" ++ "</style>"
    ++ "</prompt>"

/-- `final_xml`: the declaration, a newline, and the serialized body. -/
def xmlFinal (st : VideoPromptState) : String :=
  xmlDecl ++ "\n" ++ xmlBody st

/-- `_create_fallback_xml`: the manually-escaped fixed template
(`xml.sax.saxutils.escape` escapes only `&`, `<`, `>`). -/
def create_fallback_xml (st : VideoPromptState) : String :=
  let desc := escape_cdata (pyOrS st.enhanced_concept st.original_prompt)
  let neg := escape_cdata (pyOrS st.negative_prompt "blurry, low quality, distorted")
  "<?xml version=\"1.0\" encoding=\"UTF-8\"?>\n<prompt>\n    <description>\n        "
    ++ desc
    ++ "\n    </description>\n    \n    <negative>\n        "
    ++ neg
    ++ "\n    </negative>\n    \n    <camera movement=\"static\" angle=\"medium_shot\" lens=\"50mm\">\n        Standard camera setup with natural framing\n    </camera>\n    \n    <style aesthetic=\"photorealistic\" rendering=\"high_quality\">\n        Clean, professional visual style with natural lighting\n    </style>\n</prompt>"

/- ---------------------------------------------------------------------
Stage 1 — `generate_concept`
--------------------------------------------------------------------- -/

/-- The pydantic schema `EnhancedConcept` (structured output of Stage 1),
with its field defaults. -/
structure EnhancedConcept where
  enhanced_prompt : String
  negative_prompt : String
  enhancement_notes : List String := []
  quality_score : ℚ := 0
deriving DecidableEq

/-- Observable actions of the concept stage: a capability invocation
against the instance cached for a given temperature, carrying the system
instruction of the chain, or a `time.sleep` (in seconds). -/
inductive CapEvent where
  | call (temperature : ℚ) (system_instruction : String)
  | sleep (seconds : ℚ)
deriving DecidableEq

/-- `CONCEPT_SYSTEM_PROMPT` (from `prompts.py`). -/
def CONCEPT_SYSTEM_PROMPT : String :=
  "You are an expert video prompt engineer specializing in creating compelling visual narratives. \nYour task is to transform basic prompts into detailed, engaging video concepts that will produce high-quality AI-generated videos.\n\nFollow these guidelines:\n1. Enhance visual details and atmosphere\n2. Add compelling narrative elements\n3. Specify lighting, mood, and setting details\n4. Include camera movement suggestions\n5. Ensure the concept is engaging and cinematically interesting\n6. Keep the core intent of the original prompt\n7. Add temporal elements (what happens when)\n\nAlways provide a quality score (0.0-1.0) based on:\n- Visual richness and detail\n- Narrative engagement\n- Technical feasibility\n- Originality and creativity"

/-- The strict-retry suffix appended to the system prompt in
`generate_concept`. -/
def CONCEPT_STRICT_SUFFIX : String :=
  "\nReturn a JSON object ONLY with keys: enhanced_prompt (string), negative_prompt (string), enhancement_notes (array of strings), quality_score (float between 0 and 1). No prose."

/-- Outcomes of the four potential capability invocations of the concept
stage: three primary attempts against `_get_cached_llm()` (temperature
0.7) and one strict attempt against `_get_cached_llm(temperature=0.2)`.
Each outcome is the parsed result or the exception text `str(e)`. -/
structure ConceptOracle where
  primary : Fin 3 → Except String EnhancedConcept
  strict : Except String EnhancedConcept

/-- Merged state after a successful concept result (the partial update
returned on the success paths of `generate_concept`). -/
def conceptSuccess (st : VideoPromptState) (r : EnhancedConcept) : VideoPromptState :=
  { st with
      enhanced_concept := some r.enhanced_prompt
      negative_prompt := some r.negative_prompt
      enhancement_notes := st.enhancement_notes ++ r.enhancement_notes
      enhancement_quality_score := some r.quality_score
      current_step := "concept_generated" }

/-- Merged state after the total-failure fallback of `generate_concept`
(the exception caught is the one raised by the strict retry). -/
def conceptFallback (st : VideoPromptState) (e : String) : VideoPromptState :=
  { st with
      enhanced_concept := some st.original_prompt
      negative_prompt := some "blurry, low quality, distorted, poor lighting"
      enhancement_notes :=
        st.enhancement_notes ++ ["Concept generation failed, using fallback: " ++ e]
      enhancement_quality_score := some (1/2)
      current_step := "concept_generated_fallback" }

/-- The default temperature of `_get_cached_llm()`. -/
def defaultTemp : ℚ := 7/10

/-- The strict-retry temperature (`temperature=0.2`). -/
def strictTemp : ℚ := 1/5

/-- A primary-attempt call event. -/
def primaryCall : CapEvent := .call defaultTemp CONCEPT_SYSTEM_PROMPT

/-- The strict-retry call event. -/
def strictConceptCall : CapEvent :=
  .call strictTemp (CONCEPT_SYSTEM_PROMPT ++ CONCEPT_STRICT_SUFFIX)

/-- `generate_concept`, unrolled from `for attempt in range(3)`:
each failed attempt sleeps `0.5 * 2 ** attempt` seconds; after the loop
one strict attempt runs, and its exception (if any) reaches the outer
handler, which produces the fallback update.  Returns the merged state
together with the trace of capability calls and sleeps. -/
def generate_concept_run (st : VideoPromptState) (o : ConceptOracle) :
    VideoPromptState × List CapEvent :=
  match o.primary 0 with
  | .ok r => (conceptSuccess st r, [primaryCall])
  | .error _ =>
    match o.primary 1 with
    | .ok r => (conceptSuccess st r, [primaryCall, .sleep (1/2), primaryCall])
    | .error _ =>
      match o.primary 2 with
      | .ok r =>
        (conceptSuccess st r,
         [primaryCall, .sleep (1/2), primaryCall, .sleep 1, primaryCall])
      | .error _ =>
        let trace := [primaryCall, .sleep (1/2), primaryCall, .sleep 1,
                      primaryCall, .sleep 2, strictConceptCall]
        match o.strict with
        | .ok r => (conceptSuccess st r, trace)
        | .error e => (conceptFallback st e, trace)

/-- The merged state after `generate_concept`. -/
def generate_concept (st : VideoPromptState) (o : ConceptOracle) : VideoPromptState :=
  (generate_concept_run st o).1

/- ---------------------------------------------------------------------
Stage 2 — `enhance_with_details`
--------------------------------------------------------------------- -/

/-- `enhance_with_details`, given the outcome of its single free-text
capability call.  On success the returned text replaces
`enhanced_concept` and the keyword pass updates the config; on failure
only a note and the step marker change. -/
def enhance_with_details (st : VideoPromptState)
    (outcome : Except String String) : VideoPromptState :=
  match outcome with
  | .ok detailed_concept =>
    { st with
        enhanced_concept := some detailed_concept
        config := some (extract_config_from_concept detailed_concept st.config)
        enhancement_notes :=
          st.enhancement_notes ++ ["Added technical and stylistic details"]
        current_step := "details_enhanced" }
  | .error e =>
    { st with
        enhancement_notes :=
          st.enhancement_notes ++ ["Detail enhancement failed: " ++ e]
        current_step := "details_enhanced_fallback" }

/- ---------------------------------------------------------------------
Stage 3a — `generate_json_format`
--------------------------------------------------------------------- -/

/-- The pydantic schema `JSONPromptOutput`. -/
structure JSONPromptOutput where
  prompt : String
  negative_prompt : String
  config : JsonObj

/-- Outcomes of the capability invocations of the JSON branch: the first
call against the cached default-temperature instance, then up to two
attempts against a freshly initialized `temperature=0.2` instance with
the strict prompts. -/
structure JsonOracle where
  first : Except String JSONPromptOutput
  strict : Fin 2 → Except String JSONPromptOutput

/-- The dict built from a successful `JSONPromptOutput`. -/
def jsonOutputObj (r : JSONPromptOutput) : JsonObj :=
  [("prompt", .str r.prompt),
   ("negative_prompt", .str r.negative_prompt),
   ("config", .obj r.config)]

/-- `_create_fallback_json`: the fixed document assembled from state. -/
def create_fallback_json (st : VideoPromptState) : JsonObj :=
  [("prompt", .str (pyOrS st.enhanced_concept st.original_prompt)),
   ("negative_prompt", .str (pyOrS st.negative_prompt "blurry, low quality, distorted")),
   ("config", .obj
     [("duration_seconds", .num 8),
      ("aspect_ratio", .str "16:9"),
      ("generate_audio", .bool true),
      ("camera", .obj
        [("movement", .str "static"),
         ("angle", .str "medium_shot"),
         ("lens", .str "50mm_equivalent")]),
      ("style", .obj
        [("aesthetic", .str "photorealistic"),
         ("rendering", .str "high_quality")])])]

/-- `generate_json_format`, unrolled: first call; on failure, the strict
`for attempt in range(2)` loop; on both strict failures, the fallback
document.  Returns the merged state and the number of calls made against
the strict low-temperature instance. -/
def generate_json_format_run (st : VideoPromptState) (o : JsonOracle) :
    VideoPromptState × ℕ :=
  match o.first with
  | .ok r => ({ st with json_prompt := some (jsonOutputObj r) }, 0)
  | .error _ =>
    match o.strict 0 with
    | .ok r => ({ st with json_prompt := some (jsonOutputObj r) }, 1)
    | .error _ =>
      match o.strict 1 with
      | .ok r => ({ st with json_prompt := some (jsonOutputObj r) }, 2)
      | .error _ =>
        ({ st with json_prompt := some (create_fallback_json st) }, 2)

/-- The merged state after `generate_json_format`. -/
def generate_json_format (st : VideoPromptState) (o : JsonOracle) : VideoPromptState :=
  (generate_json_format_run st o).1

/- ---------------------------------------------------------------------
Stage 3b — `generate_xml_format` (no capability call)
--------------------------------------------------------------------- -/

/-- `generate_xml_format`: build the document deterministically, validate
it with the safe parser, fall back to the escaped fixed template if
construction or validation raises. -/
def generate_xml_format (st : VideoPromptState) : VideoPromptState :=
  if safeParseOk (xmlFinal st) then
    { st with xml_prompt := some (xmlFinal st) }
  else
    { st with xml_prompt := some (create_fallback_xml st) }

/- ---------------------------------------------------------------------
Stage 3c — `generate_natural_language_format`
--------------------------------------------------------------------- -/

/-- `generate_natural_language_format`, given the outcome of its single
free-text call; the fallback echoes `enhanced_concept` (an `Optional`
field, copied as is). -/
def generate_natural_language_format (st : VideoPromptState)
    (outcome : Except String String) : VideoPromptState :=
  match outcome with
  | .ok t => { st with natural_language_prompt := some t }
  | .error _ => { st with natural_language_prompt := st.enhanced_concept }

/- ---------------------------------------------------------------------
Stage 4 — `finalize_results`
--------------------------------------------------------------------- -/

/-- Stand-in for Python float `repr` inside
`f"Final quality score: {final_quality}"`; the claims only count this
note, so the numeric rendering is abstracted by `toString` on `ℚ`. -/
def qualityRepr (q : ℚ) : String := toString q

/-- The `missing_outputs` list of `finalize_results`, in dict insertion
order (`json`, `xml`, `natural_language`). -/
def missingOutputs (st : VideoPromptState) : List String :=
  (if st.json_prompt.isSome then [] else ["json"])
    ++ (if st.xml_prompt.isSome then [] else ["xml"])
    ++ (if st.natural_language_prompt.isSome then [] else ["natural_language"])

/-- The warning note appended when some outputs are missing. -/
def missingWarning (st : VideoPromptState) : String :=
  "Warning: Missing outputs: " ++ pyListRepr (missingOutputs st)

/-- `finalize_results`: pure bookkeeping, no capability call, no failure
path (the source body is straight-line code over already-resolved
fields). -/
def finalize_results (st : VideoPromptState) : VideoPromptState :=
  let notes := st.enhancement_notes
    ++ (if st.json_prompt.isSome then ["Generated JSON format"] else [])
    ++ (if st.xml_prompt.isSome then ["Generated XML format"] else [])
    ++ (if st.natural_language_prompt.isSome then ["Generated natural language format"] else [])
    ++ (if (missingOutputs st).isEmpty then [] else [missingWarning st])
  let final_quality := st.enhancement_quality_score.getD (7/10)
  { st with
      enhancement_notes := notes
        ++ ["Enhancement process completed",
            "Final quality score: " ++ qualityRepr final_quality]
      enhancement_quality_score := some final_quality
      current_step := "completed" }

/- ---------------------------------------------------------------------
Graph driver (`prompt_enhancer_graph.py`)
--------------------------------------------------------------------- -/

/-- `create_input_state`. -/
def create_input_state (user_prompt : String) : VideoPromptState :=
  { original_prompt := user_prompt
    current_step := "initialized"
    enhancement_notes := ["Workflow initialized"] }

/-- One oracle per capability call site of a single pipeline run. -/
structure Oracle where
  concept : ConceptOracle
  details : Except String String
  json : JsonOracle
  natural : Except String String

/-- The compiled graph, executed on a state.  The three Stage-3 branches
read only upstream fields and write pairwise disjoint fields, so the
LangGraph fan-out/fan-in (which merges their disjoint partial updates)
is equivalent to applying them in sequence; the sequential order chosen
here is json, xml, natural_language. -/
def runPipeline (st0 : VideoPromptState) (o : Oracle) : VideoPromptState :=
  let s1 := generate_concept st0 o.concept
  let s2 := enhance_with_details s1 o.details
  let s3 := generate_json_format s2 o.json
  let s4 := generate_xml_format s3
  let s5 := generate_natural_language_format s4 o.natural
  finalize_results s5

/-- The successive states of one run: initial state, then the state after
each of the six stages (the three parallel branches sequentialized as in
`runPipeline`). -/
def pipelineStates (st0 : VideoPromptState) (o : Oracle) : List VideoPromptState :=
  let s1 := generate_concept st0 o.concept
  let s2 := enhance_with_details s1 o.details
  let s3 := generate_json_format s2 o.json
  let s4 := generate_xml_format s3
  let s5 := generate_natural_language_format s4 o.natural
  [st0, s1, s2, s3, s4, s5, finalize_results s5]

/-- `WorkflowOutputState` (a `TypedDict`: every key present). -/
structure WorkflowOutputState where
  json_prompt : JsonObj
  xml_prompt : String
  natural_language_prompt : String
  enhancement_notes : List String
  quality_score : ℚ
  saved_dir : String

/-- A plain mapping holding the final state, as produced by
`graph.invoke` — any key may be absent (`final_state.get(...)`). -/
structure FinalStateDict where
  json_prompt : Option JsonObj := none
  xml_prompt : Option String := none
  natural_language_prompt : Option String := none
  enhancement_notes : Option (List String) := none
  enhancement_quality_score : Option ℚ := none

/-- `extract_output_state`, dict branch: every lookup is coalesced with
Python `or` (falsy values replaced by the default), except
`enhancement_notes`, which uses `.get` with default `[]`. -/
def extract_output_state_dict (d : FinalStateDict) : WorkflowOutputState :=
  { json_prompt := pyOrObj d.json_prompt []
    xml_prompt := pyOrS d.xml_prompt ""
    natural_language_prompt := pyOrS d.natural_language_prompt ""
    enhancement_notes := d.enhancement_notes.getD []
    quality_score := pyOrQ d.enhancement_quality_score 0
    saved_dir := "" }

/-- `extract_output_state`, typed-record branch. -/
def extract_output_state (s : VideoPromptState) : WorkflowOutputState :=
  { json_prompt := pyOrObj s.json_prompt []
    xml_prompt := pyOrS s.xml_prompt ""
    natural_language_prompt := pyOrS s.natural_language_prompt ""
    enhancement_notes := s.enhancement_notes
    quality_score := pyOrQ s.enhancement_quality_score 0
    saved_dir := "" }

/-- Number of `.call` events in a trace. -/
def countCalls (tr : List CapEvent) : ℕ :=
  (tr.filter (fun e => match e with | .call _ _ => true | .sleep _ => false)).length

/-- Total number of capability invocations of one pipeline run:
the concept attempts, the single details call, the first JSON call plus
its strict retries, and the single natural-language call. -/
def pipelineCallCount (st0 : VideoPromptState) (o : Oracle) : ℕ :=
  countCalls (generate_concept_run st0 o.concept).2
    + 1
    + (1 + (generate_json_format_run
              (enhance_with_details (generate_concept st0 o.concept) o.details)
              o.json).2)
    + 1

/-- The oracles of one `enhance_prompt` invocation: the pipeline's
capability calls plus the persistence sink (`save_generation_outputs`
returns the saved directory or raises). -/
structure FullOracle where
  pipeline : Oracle
  persist : Except String String

/-- `PromptEnhancerWorkflow.enhance_prompt`.  The empty-prompt guard
(`if not user_prompt or not user_prompt.strip()`) raises `ValueError`
before the graph (and hence any capability) is touched.  Every node
traps its own capability failures, so `graph.invoke` — retried twice in
the source — returns on the first try; the outer handler therefore fires
only for the persistence call, whose exception it wraps in
`RuntimeError(f"Failed to enhance prompt: {e}")` after a best-effort
diagnostic save.  Returns the outcome together with the number of
capability calls made. -/
def enhance_prompt_run (user_prompt : String) (o : FullOracle) :
    Except String WorkflowOutputState × ℕ :=
  if pyStrip user_prompt = "" then
    (.error "User prompt cannot be empty", 0)
  else
    let st0 := create_input_state (pyStrip user_prompt)
    let final := runPipeline st0 o.pipeline
    let output := extract_output_state final
    let calls := pipelineCallCount st0 o.pipeline
    match o.persist with
    | .ok saved_dir => (.ok { output with saved_dir := saved_dir }, calls)
    | .error e => (.error ("Failed to enhance prompt: " ++ e), calls)

/- ---------------------------------------------------------------------
Concrete inputs used to instantiate the theorems
--------------------------------------------------------------------- -/

/-- A successful concept result whose note list is empty (the schema
default `enhancement_notes: list[str] = Field(default_factory=list)`
makes this a perfectly valid capability answer). -/
def exConceptNoNotes : EnhancedConcept :=
  { enhanced_prompt := "Enhanced cat scene"
    negative_prompt := "blurry"
    enhancement_notes := []
    quality_score := 9/10 }

/-- A successful concept result carrying one note. -/
def exConceptOneNote : EnhancedConcept :=
  { enhanced_prompt := "Enhanced cat scene"
    negative_prompt := "blurry"
    enhancement_notes := ["Enhanced visual detail"]
    quality_score := 9/10 }

/-- A pipeline oracle on which every stage succeeds on its first call and
the concept result carries no notes. -/
def exOracleAllOkNoNotes : Oracle :=
  { concept := { primary := fun _ => .ok exConceptNoNotes, strict := .error "unused" }
    details := .ok "a cinematic slow zoom over a cat"
    json := { first := .ok { prompt := "p", negative_prompt := "n", config := [] }
              strict := fun _ => .error "unused" }
    natural := .ok "A cat sits on a windowsill watching the rain." }

/-- A pipeline oracle on which every stage succeeds on its first call and
the concept result carries one note. -/
def exOracleAllOkOneNote : Oracle :=
  { concept := { primary := fun _ => .ok exConceptOneNote, strict := .error "unused" }
    details := .ok "a cinematic slow zoom over a cat"
    json := { first := .ok { prompt := "p", negative_prompt := "n", config := [] }
              strict := fun _ => .error "unused" }
    natural := .ok "A cat sits on a windowsill watching the rain." }

/-- A concept oracle on which every capability call fails. -/
def exConceptAllFail : ConceptOracle :=
  { primary := fun _ => .error "timeout", strict := .error "schema mismatch" }

/-- A JSON-branch oracle on which every capability call fails. -/
def exJsonAllFail : JsonOracle :=
  { first := .error "timeout", strict := fun _ => .error "bad json" }

/-- A mid-pipeline state as it stands after a successful concept stage. -/
def exStateAfterConcept : VideoPromptState :=
  { original_prompt := "A cat sitting on a windowsill watching rain"
    enhanced_concept := some "Enhanced cat scene"
    negative_prompt := some "blurry"
    enhancement_notes := ["Workflow initialized"]
    current_step := "concept_generated"
    enhancement_quality_score := some (9/10) }

/-- A final-state mapping with every key absent. -/
def exDictEmpty : FinalStateDict := {}

/-- A full oracle whose pipeline succeeds everywhere but whose
persistence sink fails. -/
def exFullOraclePersistFail : FullOracle :=
  { pipeline := exOracleAllOkOneNote, persist := .error "disk full" }

/-- A full oracle whose pipeline succeeds everywhere and whose
persistence sink succeeds. -/
def exFullOraclePersistOk : FullOracle :=
  { pipeline := exOracleAllOkOneNote, persist := .ok "outdir" }

/- ---------------------------------------------------------------------
Helper lemmas: XML escaping round-trip
--------------------------------------------------------------------- -/

set_option maxHeartbeats 1000000 in
theorem unescapeChars_cons_ne (c : Char) (rest : List Char) (h : ¬ c = '&') :
    unescapeChars (c :: rest) = c :: unescapeChars rest := by
  rw [unescapeChars.eq_def]
  simp [h]

set_option maxHeartbeats 1000000 in
theorem unescapeChars_repAttrib (c : Char) (rest : List Char) :
    unescapeChars (repAttrib c ++ rest) = c :: unescapeChars rest := by
  by_cases h1 : c = '&'
  · subst h1; simp [repAttrib]; rfl
  by_cases h2 : c = '<'
  · subst h2; simp [repAttrib]; rfl
  by_cases h3 : c = '>'
  · subst h3; simp [repAttrib]; rfl
  by_cases h4 : c = '"'
  · subst h4; simp [repAttrib]; rfl
  by_cases h5 : c = '\r'
  · subst h5; simp [repAttrib]; rfl
  by_cases h6 : c = '\n'
  · subst h6; simp [repAttrib]; rfl
  by_cases h7 : c = '\t'
  · subst h7; simp [repAttrib]; rfl
  · simp [repAttrib, h1, h2, h3, h4, h5, h6, h7, unescapeChars_cons_ne c rest h1]

/-- Unescaping inverts attribute escaping: a conforming parser recovers
the original attribute value verbatim. -/
theorem unescapeChars_escapeWith (l : List Char) :
    unescapeChars (escapeWith repAttrib l) = l := by
  induction l with
  | nil => rfl
  | cons c t ih => rw [escapeWith, unescapeChars_repAttrib, ih]

theorem quot_not_mem_repAttrib (c : Char) : '"' ∉ repAttrib c := by
  unfold repAttrib
  split_ifs with h1 h2 h3 h4 h5 h6 h7 <;> simp_all
  exact fun hc => h4 hc.symm

/-- An escaped attribute value contains no raw quote, so the closing
quote seen by a parser is exactly the serializer's delimiter. -/
theorem quot_not_mem_escapeWith (l : List Char) : '"' ∉ escapeWith repAttrib l := by
  induction l with
  | nil => simp [escapeWith]
  | cons c t ih => simp [escapeWith, List.mem_append]; exact ⟨quot_not_mem_repAttrib c, ih⟩

theorem lt_not_mem_repAttrib (c : Char) : '<' ∉ repAttrib c := by
  unfold repAttrib
  split_ifs with h1 h2 h3 h4 h5 h6 h7 <;> simp_all
  exact fun hc => h2 hc.symm

/-- An escaped attribute value contains no raw `<` (no markup can start
inside it). -/
theorem lt_not_mem_escapeWith (l : List Char) : '<' ∉ escapeWith repAttrib l := by
  induction l with
  | nil => simp [escapeWith]
  | cons c t ih => simp [escapeWith, List.mem_append]; exact ⟨lt_not_mem_repAttrib c, ih⟩

/- ---------------------------------------------------------------------
Helper lemmas: per-stage effects on the state
--------------------------------------------------------------------- -/


theorem generate_concept_notes_mono (st : VideoPromptState) (o : ConceptOracle) :
    st.enhancement_notes.length ≤ (generate_concept st o).enhancement_notes.length := by
  unfold generate_concept generate_concept_run
  cases h0 : o.primary 0 <;> cases h1 : o.primary 1 <;> cases h2 : o.primary 2 <;>
    cases h3 : o.strict <;> simp [conceptSuccess, conceptFallback]

theorem enhance_with_details_notes_mono (st : VideoPromptState) (oc : Except String String) :
    st.enhancement_notes.length ≤ (enhance_with_details st oc).enhancement_notes.length := by
  unfold enhance_with_details
  cases oc <;> simp

theorem generate_json_format_frame (st : VideoPromptState) (o : JsonOracle) :
    ∃ j, generate_json_format st o = { st with json_prompt := some j } := by
  unfold generate_json_format generate_json_format_run
  cases h0 : o.first <;> cases h1 : o.strict 0 <;> cases h2 : o.strict 1 <;>
    exact ⟨_, rfl⟩

theorem generate_xml_format_frame (st : VideoPromptState) :
    ∃ x, generate_xml_format st = { st with xml_prompt := some x } := by
  unfold generate_xml_format
  by_cases h : safeParseOk (xmlFinal st) <;> simp [h]

theorem generate_natural_frame (st : VideoPromptState) (oc : Except String String) :
    (generate_natural_language_format st oc) = { st with natural_language_prompt := (generate_natural_language_format st oc).natural_language_prompt } ∧
    (st.enhanced_concept.isSome → (generate_natural_language_format st oc).natural_language_prompt.isSome) := by
  unfold generate_natural_language_format
  cases oc <;> simp

theorem finalize_results_notes_mono (st : VideoPromptState) :
    st.enhancement_notes.length ≤ (finalize_results st).enhancement_notes.length := by
  simp [finalize_results]

theorem generate_json_notes_mono (st : VideoPromptState) (o : JsonOracle) :
    st.enhancement_notes.length ≤ (generate_json_format st o).enhancement_notes.length := by
  obtain ⟨j, hj⟩ := generate_json_format_frame st o
  simp [hj]

theorem generate_xml_notes_mono (st : VideoPromptState) :
    st.enhancement_notes.length ≤ (generate_xml_format st).enhancement_notes.length := by
  obtain ⟨x, hx⟩ := generate_xml_format_frame st
  simp [hx]

theorem generate_natural_notes_mono (st : VideoPromptState) (oc : Except String String) :
    st.enhancement_notes.length ≤ (generate_natural_language_format st oc).enhancement_notes.length := by
  unfold generate_natural_language_format
  cases oc <;> simp


/- ---------------------------------------------------------------------
C2 — enhancement_notes monotonicity and final count
--------------------------------------------------------------------- -/


theorem finalize_notes_length_all_present (st : VideoPromptState)
    (hj : st.json_prompt.isSome = true) (hx : st.xml_prompt.isSome = true)
    (hn : st.natural_language_prompt.isSome = true) :
    (finalize_results st).enhancement_notes.length = st.enhancement_notes.length + 5 := by
  simp [finalize_results, missingOutputs, hj, hx, hn]

/-- C2 (amended): across every stage of the pipeline the length of
`enhancement_notes` is monotonically non-decreasing; and on a run in
which the concept stage succeeds on its first attempt and the detail
stage succeeds, the final note count is exactly 7 plus the number of
notes returned by the concept capability — so it reaches 8 exactly when
the capability returns at least one note.  (As stated the claim is
false: the three format branches append no notes, so the length is not
strictly increasing at every stage, and a successful run whose concept
result carries no notes ends with 7 entries; see `c2_counterexample`.) -/
theorem c2_claim :
    (∀ (st : VideoPromptState) (o : Oracle),
      List.Chain' (fun a b => a.enhancement_notes.length ≤ b.enhancement_notes.length)
        (pipelineStates st o))
    ∧ (∀ (p : String) (o : Oracle) (r : EnhancedConcept) (d : String),
        o.concept.primary 0 = .ok r → o.details = .ok d →
        (runPipeline (create_input_state p) o).enhancement_notes.length
          = 7 + r.enhancement_notes.length) := by
  constructor
  · intro st o
    simp only [pipelineStates, List.chain'_cons, List.chain'_singleton]
    refine ⟨generate_concept_notes_mono _ _, enhance_with_details_notes_mono _ _,
      generate_json_notes_mono _ _, generate_xml_notes_mono _,
      generate_natural_notes_mono _ _, finalize_results_notes_mono _, trivial⟩
  · intro p o r d hc hd
    unfold runPipeline
    set s1 := generate_concept (create_input_state p) o.concept with hs1
    set s2 := enhance_with_details s1 o.details with hs2
    obtain ⟨j, hj⟩ := generate_json_format_frame s2 o.json
    obtain ⟨x, hx⟩ := generate_xml_format_frame (generate_json_format s2 o.json)
    have hs1v : s1 = conceptSuccess (create_input_state p) r := by
      rw [hs1]; unfold generate_concept generate_concept_run; rw [hc]
    have hs2v : s2 = { s1 with
        enhanced_concept := some d
        config := some (extract_config_from_concept d s1.config)
        enhancement_notes := s1.enhancement_notes ++ ["Added technical and stylistic details"]
        current_step := "details_enhanced" } := by
      rw [hs2, hd]; rfl
    have hnat : ∀ st' : VideoPromptState, st'.enhanced_concept.isSome = true →
        (generate_natural_language_format st' o.natural).enhancement_notes = st'.enhancement_notes ∧
        (generate_natural_language_format st' o.natural).natural_language_prompt.isSome = true ∧
        (generate_natural_language_format st' o.natural).json_prompt = st'.json_prompt ∧
        (generate_natural_language_format st' o.natural).xml_prompt = st'.xml_prompt := by
      intro st' h
      unfold generate_natural_language_format
      cases o.natural <;> simp [h]
    have henh : (generate_xml_format (generate_json_format s2 o.json)).enhanced_concept.isSome = true := by
      rw [hx, hj, hs2v]; simp
    obtain ⟨hn1, hn2, hn3, hn4⟩ := hnat _ henh
    rw [finalize_notes_length_all_present _ ?_ ?_ hn2]
    · rw [hn1, hx, hj, hs2v, hs1v]
      simp [conceptSuccess, create_input_state]
      omega
    · rw [hn3, hx, hj]; simp
    · rw [hn4, hx]; simp
  
set_option maxRecDepth 60000 in
/-- C2 counterexample: a full successful run (every stage succeeds on
its first call, the XML validation passes, no fallback marker appears in
any `current_step`) whose concept result carries no notes: the per-stage
note counts are `[1, 1, 2, 2, 2, 2, 7]` — constant across the three
format branches, and the final count 7 is below the claimed 8. -/
theorem c2_counterexample :
    (pipelineStates (create_input_state "A cat sitting on a windowsill watching rain")
        exOracleAllOkNoNotes).map (fun s => s.current_step) =
      ["initialized", "concept_generated", "details_enhanced", "details_enhanced",
       "details_enhanced", "details_enhanced", "completed"]
    ∧ (pipelineStates (create_input_state "A cat sitting on a windowsill watching rain")
        exOracleAllOkNoNotes).map (fun s => s.enhancement_notes.length) = [1, 1, 2, 2, 2, 2, 7]
    ∧ safeParseOk (xmlFinal (generate_json_format (enhance_with_details
        (generate_concept (create_input_state "A cat sitting on a windowsill watching rain")
          exOracleAllOkNoNotes.concept) exOracleAllOkNoNotes.details)
        exOracleAllOkNoNotes.json)) = true
    ∧ ¬ (8 ≤ (runPipeline (create_input_state "A cat sitting on a windowsill watching rain")
          exOracleAllOkNoNotes).enhancement_notes.length) := by
  refine ⟨by decide, by decide, by decide, by decide⟩

/-- C2 witness: the amended count law applied to a concrete full run
whose concept result carries one note (final count 8). -/
theorem c2_witness :
    exOracleAllOkOneNote.concept.primary 0 = .ok exConceptOneNote
    ∧ exOracleAllOkOneNote.details = .ok "a cinematic slow zoom over a cat"
    ∧ (runPipeline (create_input_state "hi") exOracleAllOkOneNote).enhancement_notes.length
        = 7 + exConceptOneNote.enhancement_notes.length := by
  refine ⟨rfl, rfl, c2_claim.2 "hi" exOracleAllOkOneNote exConceptOneNote
    "a cinematic slow zoom over a cat" rfl rfl⟩


/- ---------------------------------------------------------------------
C6 — keyword-based config extraction
--------------------------------------------------------------------- -/


theorem extract_config_decomp (text : String) (cfg : ConfigSettings) :
    extract_config_from_concept text (some cfg) =
      { duration_seconds :=
          if (hasKw (pyLower text) "quick" || hasKw (pyLower text) "brief") then 5
          else if (hasKw (pyLower text) "long" || hasKw (pyLower text) "extended") then 12
          else cfg.duration_seconds
        aspect_ratio := cfg.aspect_ratio
        generate_audio := cfg.generate_audio
        camera :=
          { movement :=
              if hasKw (pyLower text) "zoom" then "zoom_in"
              else if hasKw (pyLower text) "pan" then "pan"
              else if hasKw (pyLower text) "static" then "static"
              else cfg.camera.movement
            angle := cfg.camera.angle
            lens := cfg.camera.lens }
        style :=
          { aesthetic :=
              if hasKw (pyLower text) "cinematic" then "cinematic"
              else if hasKw (pyLower text) "documentary" then "documentary"
              else if hasKw (pyLower text) "commercial" then "commercial"
              else cfg.style.aesthetic
            rendering := cfg.style.rendering
            color_palette := cfg.style.color_palette } } := by
  simp only [extract_config_from_concept, Option.getD]
  split_ifs <;> rfl

/-- C6 (amended): the keyword pass over the lower-cased text is
deterministic and first-match-wins per category: "quick"/"brief" set the
duration to the 5-second preset, otherwise "long"/"extended" set it to
the 12-second preset; camera movement is set from "zoom"/"pan"/"static"
in that order (to "zoom_in"/"pan"/"static"); style aesthetic from
"cinematic"/"documentary"/"commercial" in that order; matching is
case-insensitive substring search; a category with no matching keyword
leaves its field unchanged, and all other config fields are untouched.
(As stated the claim is false: the presets are absolute, so a "long"
keyword does not lengthen a starting duration above 12 seconds; see
`c6_counterexample`.) -/
theorem c6_claim (text : String) (cfg : ConfigSettings) :
    ((hasKw (pyLower text) "quick" || hasKw (pyLower text) "brief") = true →
      (extract_config_from_concept text (some cfg)).duration_seconds = 5)
    ∧ ((hasKw (pyLower text) "quick" || hasKw (pyLower text) "brief") = false →
        (hasKw (pyLower text) "long" || hasKw (pyLower text) "extended") = true →
        (extract_config_from_concept text (some cfg)).duration_seconds = 12)
    ∧ ((hasKw (pyLower text) "quick" || hasKw (pyLower text) "brief") = false →
        (hasKw (pyLower text) "long" || hasKw (pyLower text) "extended") = false →
        (extract_config_from_concept text (some cfg)).duration_seconds = cfg.duration_seconds)
    ∧ (hasKw (pyLower text) "zoom" = true →
        (extract_config_from_concept text (some cfg)).camera.movement = "zoom_in")
    ∧ (hasKw (pyLower text) "zoom" = false → hasKw (pyLower text) "pan" = true →
        (extract_config_from_concept text (some cfg)).camera.movement = "pan")
    ∧ (hasKw (pyLower text) "zoom" = false → hasKw (pyLower text) "pan" = false →
        hasKw (pyLower text) "static" = true →
        (extract_config_from_concept text (some cfg)).camera.movement = "static")
    ∧ (hasKw (pyLower text) "zoom" = false → hasKw (pyLower text) "pan" = false →
        hasKw (pyLower text) "static" = false →
        (extract_config_from_concept text (some cfg)).camera.movement = cfg.camera.movement)
    ∧ (hasKw (pyLower text) "cinematic" = true →
        (extract_config_from_concept text (some cfg)).style.aesthetic = "cinematic")
    ∧ (hasKw (pyLower text) "cinematic" = false → hasKw (pyLower text) "documentary" = true →
        (extract_config_from_concept text (some cfg)).style.aesthetic = "documentary")
    ∧ (hasKw (pyLower text) "cinematic" = false → hasKw (pyLower text) "documentary" = false →
        hasKw (pyLower text) "commercial" = true →
        (extract_config_from_concept text (some cfg)).style.aesthetic = "commercial")
    ∧ (hasKw (pyLower text) "cinematic" = false → hasKw (pyLower text) "documentary" = false →
        hasKw (pyLower text) "commercial" = false →
        (extract_config_from_concept text (some cfg)).style.aesthetic = cfg.style.aesthetic)
    ∧ (extract_config_from_concept text (some cfg)).aspect_ratio = cfg.aspect_ratio
    ∧ (extract_config_from_concept text (some cfg)).generate_audio = cfg.generate_audio
    ∧ (extract_config_from_concept text (some cfg)).camera.angle = cfg.camera.angle
    ∧ (extract_config_from_concept text (some cfg)).camera.lens = cfg.camera.lens
    ∧ (extract_config_from_concept text (some cfg)).style.rendering = cfg.style.rendering
    ∧ (extract_config_from_concept text (some cfg)).style.color_palette = cfg.style.color_palette := by
  rw [extract_config_decomp]
  refine ⟨?_, ?_, ?_, ?_, ?_, ?_, ?_, ?_, ?_, ?_, ?_, rfl, rfl, rfl, rfl, rfl, rfl⟩ <;>
    (intros; simp_all)

/-- C6 counterexample: with starting duration 20 and enriched text
"an extended take" (a lengthening keyword, no shortening keyword), the
pass sets the duration to 12 — it does not lengthen it. -/
theorem c6_counterexample :
    hasKw (pyLower "an extended take") "extended" = true
    ∧ hasKw (pyLower "an extended take") "quick" = false
    ∧ hasKw (pyLower "an extended take") "brief" = false
    ∧ (extract_config_from_concept "an extended take"
        (some { duration_seconds := 20 })).duration_seconds = 12
    ∧ ¬ ((20 : Int) < (extract_config_from_concept "an extended take"
        (some { duration_seconds := 20 })).duration_seconds) := by
  refine ⟨by decide, by decide, by decide, by decide, by decide⟩

/-- C6 witness: the keyword law applied to the concrete text
"A quick cinematic pan" over the default config. -/
theorem c6_witness :
    (extract_config_from_concept "A quick cinematic pan" (some {})).duration_seconds = 5
    ∧ (extract_config_from_concept "A quick cinematic pan" (some {})).camera.movement = "pan"
    ∧ (extract_config_from_concept "A quick cinematic pan" (some {})).style.aesthetic = "cinematic"
    ∧ (extract_config_from_concept "A quick cinematic pan" (some {})).aspect_ratio = "16:9" := by
  obtain ⟨hd1, hd2, hd3, hm1, hm2, hm3, hm4, ha1, ha2, ha3, ha4, f1, f2, f3, f4, f5, f6⟩ :=
    c6_claim "A quick cinematic pan" {}
  exact ⟨hd1 (by decide), hm2 (by decide) (by decide), ha1 (by decide), f1⟩




/- ---------------------------------------------------------------------
C8 — detail-stage failure is a frame update
--------------------------------------------------------------------- -/

/-- C8 (amended): when the detail-enrichment capability call fails, every
field of the state is passed through unchanged — original prompt,
enhanced concept, config, negative prompt, quality score, and the three
format outputs — except that one failure note is appended and
`current_step` is set to the stage's fallback marker
`"details_enhanced_fallback"`.  (As stated the claim is false: it says
every field other than the note keeps its prior value, but
`current_step` changes; see `c8_counterexample`.) -/
theorem c8_claim (st : VideoPromptState) (e : String) :
    (enhance_with_details st (.error e)).original_prompt = st.original_prompt
    ∧ (enhance_with_details st (.error e)).enhanced_concept = st.enhanced_concept
    ∧ (enhance_with_details st (.error e)).config = st.config
    ∧ (enhance_with_details st (.error e)).negative_prompt = st.negative_prompt
    ∧ (enhance_with_details st (.error e)).enhancement_quality_score
        = st.enhancement_quality_score
    ∧ (enhance_with_details st (.error e)).json_prompt = st.json_prompt
    ∧ (enhance_with_details st (.error e)).xml_prompt = st.xml_prompt
    ∧ (enhance_with_details st (.error e)).natural_language_prompt
        = st.natural_language_prompt
    ∧ (enhance_with_details st (.error e)).enhancement_notes
        = st.enhancement_notes ++ ["Detail enhancement failed: " ++ e]
    ∧ (enhance_with_details st (.error e)).current_step = "details_enhanced_fallback" := by
  unfold enhance_with_details
  exact ⟨rfl, rfl, rfl, rfl, rfl, rfl, rfl, rfl, rfl, rfl⟩

/-- C8 counterexample: on a state whose `current_step` is
`"concept_generated"`, a failing detail stage rewrites `current_step`,
contradicting "every other field keeps its prior value". -/
theorem c8_counterexample :
    exStateAfterConcept.current_step = "concept_generated"
    ∧ (enhance_with_details exStateAfterConcept (.error "timeout")).current_step
        = "details_enhanced_fallback"
    ∧ (enhance_with_details exStateAfterConcept (.error "timeout")).current_step
        ≠ exStateAfterConcept.current_step := by
  refine ⟨rfl, rfl, by decide⟩

/- ---------------------------------------------------------------------
C4 — concept-stage total-failure fallback
--------------------------------------------------------------------- -/

/-- C4: if every capability call of the concept stage fails (the three
primary attempts and the strict low-temperature retry), the stage
returns the fallback update: `enhanced_concept` equals the state's
`original_prompt`, the quality score equals 0.5, the fixed generic
negative prompt is set, and exactly one note is appended which contains
the substring "fallback".  The stage is a total function — it cannot
raise. -/
theorem c4_claim (st : VideoPromptState) (o : ConceptOracle)
    (h0 : ∃ e, o.primary 0 = .error e) (h1 : ∃ e, o.primary 1 = .error e)
    (h2 : ∃ e, o.primary 2 = .error e) (hs : ∃ e, o.strict = .error e) :
    (generate_concept st o).enhanced_concept = some st.original_prompt
    ∧ (generate_concept st o).enhancement_quality_score = some (1/2)
    ∧ (generate_concept st o).negative_prompt
        = some "blurry, low quality, distorted, poor lighting"
    ∧ ∃ (note : String) (a b : List Char),
        (generate_concept st o).enhancement_notes = st.enhancement_notes ++ [note]
        ∧ note.data = a ++ "fallback".data ++ b := by
  obtain ⟨e0, h0⟩ := h0
  obtain ⟨e1, h1⟩ := h1
  obtain ⟨e2, h2⟩ := h2
  obtain ⟨es, hs⟩ := hs
  unfold generate_concept generate_concept_run
  rw [h0, h1, h2, hs]
  have hsplit : ("Concept generation failed, using fallback: ").data
      = "Concept generation failed, using ".data ++ "fallback".data ++ ": ".data := by decide
  refine ⟨rfl, rfl, rfl, "Concept generation failed, using fallback: " ++ es,
    "Concept generation failed, using ".data, ": ".data ++ es.data, rfl, ?_⟩
  rw [String.data_append, hsplit]
  simp [List.append_assoc]

/-- C4 witness: the fallback law at a concrete state and an oracle whose
four calls all fail. -/
theorem c4_witness :
    (generate_concept (create_input_state "hi") exConceptAllFail).enhanced_concept = some "hi"
    ∧ (generate_concept (create_input_state "hi") exConceptAllFail).enhancement_quality_score
        = some (1/2)
    ∧ (generate_concept (create_input_state "hi") exConceptAllFail).negative_prompt
        = some "blurry, low quality, distorted, poor lighting" := by
  have h := c4_claim (create_input_state "hi") exConceptAllFail
    ⟨_, rfl⟩ ⟨_, rfl⟩ ⟨_, rfl⟩ ⟨_, rfl⟩
  exact ⟨h.1, h.2.1, h.2.2.1⟩

/- ---------------------------------------------------------------------
C7 — finalize_results
--------------------------------------------------------------------- -/

/-- C7: `finalize_results` is a total function (never fails): it appends
a descriptive note for each present format output and a warning naming
the missing ones, sets the quality score to 0.7 exactly when it was
absent (otherwise keeps the existing score), appends the two final
summary notes, never removes an existing note, and sets `current_step`
to "completed". -/
theorem c7_claim (st : VideoPromptState) :
    (finalize_results st).current_step = "completed"
    ∧ (finalize_results st).enhancement_quality_score
        = some (st.enhancement_quality_score.getD (7/10))
    ∧ (∃ t, (finalize_results st).enhancement_notes = st.enhancement_notes ++ t)
    ∧ (st.json_prompt.isSome = true →
        "Generated JSON format" ∈ (finalize_results st).enhancement_notes)
    ∧ (st.xml_prompt.isSome = true →
        "Generated XML format" ∈ (finalize_results st).enhancement_notes)
    ∧ (st.natural_language_prompt.isSome = true →
        "Generated natural language format" ∈ (finalize_results st).enhancement_notes)
    ∧ (missingOutputs st ≠ [] →
        missingWarning st ∈ (finalize_results st).enhancement_notes)
    ∧ "Enhancement process completed" ∈ (finalize_results st).enhancement_notes
    ∧ ("Final quality score: " ++ qualityRepr (st.enhancement_quality_score.getD (7/10)))
        ∈ (finalize_results st).enhancement_notes := by
  refine ⟨rfl, rfl,
    ⟨(if st.json_prompt.isSome then ["Generated JSON format"] else [])
      ++ ((if st.xml_prompt.isSome then ["Generated XML format"] else [])
      ++ ((if st.natural_language_prompt.isSome then ["Generated natural language format"] else [])
      ++ ((if missingOutputs st = [] then [] else [missingWarning st])
      ++ ["Enhancement process completed",
          "Final quality score: " ++ qualityRepr (st.enhancement_quality_score.getD (7/10))]))),
      by simp [finalize_results, List.append_assoc]⟩, ?_, ?_, ?_, ?_, ?_, ?_⟩
  · intro h; simp [finalize_results, h]
  · intro h; simp [finalize_results, h]
  · intro h; simp [finalize_results, h]
  · intro h; simp [finalize_results, List.isEmpty_iff, h]
  · simp [finalize_results]
  · simp [finalize_results]

/-- C7 witness: finalize on a concrete mid-pipeline state with all three
outputs missing and a present quality score. -/
theorem c7_witness :
    (finalize_results exStateAfterConcept).current_step = "completed"
    ∧ (finalize_results exStateAfterConcept).enhancement_quality_score = some (9/10)
    ∧ missingWarning exStateAfterConcept
        ∈ (finalize_results exStateAfterConcept).enhancement_notes
    ∧ "Enhancement process completed"
        ∈ (finalize_results exStateAfterConcept).enhancement_notes := by
  have h := c7_claim exStateAfterConcept
  exact ⟨h.1, h.2.1, h.2.2.2.2.2.2.1 (by decide), h.2.2.2.2.2.2.2.1⟩




/- ---------------------------------------------------------------------
C9 — concept-stage retry schedule
--------------------------------------------------------------------- -/

set_option maxRecDepth 100000 in
/-- C9: the concept stage makes at most 3 primary attempts against the
default-temperature instance, sleeping 0.5 s, 1 s, 2 s (base 0.5,
doubling) after each failed attempt — its call/sleep trace is always one
of the four listed schedules; when all primaries fail, it makes exactly
one further attempt against the low-temperature instance carrying the
stricter system instruction (which contains "JSON object ONLY"), and
only after that attempt fails does it take the fallback path. -/
theorem c9_claim (st : VideoPromptState) (o : ConceptOracle) :
    ((generate_concept_run st o).2 = [primaryCall]
      ∨ (generate_concept_run st o).2 = [primaryCall, .sleep (1/2), primaryCall]
      ∨ (generate_concept_run st o).2
          = [primaryCall, .sleep (1/2), primaryCall, .sleep 1, primaryCall]
      ∨ (generate_concept_run st o).2
          = [primaryCall, .sleep (1/2), primaryCall, .sleep 1, primaryCall, .sleep 2,
             strictConceptCall])
    ∧ ((∀ i, ∃ e, o.primary i = .error e) →
        (generate_concept_run st o).2
          = [primaryCall, .sleep (1/2), primaryCall, .sleep 1, primaryCall, .sleep 2,
             strictConceptCall])
    ∧ hasSubList "JSON object ONLY".data (CONCEPT_SYSTEM_PROMPT ++ CONCEPT_STRICT_SUFFIX).data
        = true
    ∧ (∀ e, o.strict = .error e → (∀ i, ∃ e2, o.primary i = .error e2) →
        (generate_concept_run st o).1.current_step = "concept_generated_fallback") := by
  refine ⟨?_, ?_, by decide, ?_⟩
  · unfold generate_concept_run
    cases o.primary 0 <;> cases o.primary 1 <;> cases o.primary 2 <;> cases o.strict <;>
      simp
  · intro h
    obtain ⟨e0, h0⟩ := h 0
    obtain ⟨e1, h1⟩ := h 1
    obtain ⟨e2, h2⟩ := h 2
    unfold generate_concept_run
    rw [h0, h1, h2]
    cases o.strict <;> rfl
  · intro e he h
    obtain ⟨e0, h0⟩ := h 0
    obtain ⟨e1, h1⟩ := h 1
    obtain ⟨e2, h2⟩ := h 2
    unfold generate_concept_run
    rw [h0, h1, h2, he]
    rfl

/-- C9 witness: the full schedule on a concrete all-failing oracle. -/
theorem c9_witness :
    (generate_concept_run (create_input_state "hi") exConceptAllFail).2
      = [primaryCall, .sleep (1/2), primaryCall, .sleep 1, primaryCall, .sleep 2,
         strictConceptCall]
    ∧ (generate_concept_run (create_input_state "hi") exConceptAllFail).1.current_step
      = "concept_generated_fallback" := by
  have h := c9_claim (create_input_state "hi") exConceptAllFail
  exact ⟨h.2.1 (fun i => ⟨"timeout", rfl⟩),
    h.2.2.2 "schema mismatch" rfl (fun i => ⟨"timeout", rfl⟩)⟩

/- ---------------------------------------------------------------------
C5 — JSON-branch retry and fallback
--------------------------------------------------------------------- -/

/-- C5 (amended): the JSON branch always stores a complete object with
keys `prompt`, `negative_prompt`, `config` and is a total function
(never raises).  If the first generation call fails it retries against
the stricter low-temperature instance up to TWO times (`range(2)`), not
exactly once: one strict call if the first strict attempt succeeds, two
otherwise; on total failure the stored document is exactly
`_create_fallback_json` of the current state.  (As stated the claim is
false — "retries exactly once" — see `c5_counterexample`.) -/
theorem c5_claim (st : VideoPromptState) (o : JsonOracle) :
    (∃ j, (generate_json_format_run st o).1.json_prompt = some j
        ∧ objHasKey j "prompt" = true
        ∧ objHasKey j "negative_prompt" = true
        ∧ objHasKey j "config" = true)
    ∧ ((∃ e, o.first = .error e) → (∃ r, o.strict 0 = .ok r) →
        (generate_json_format_run st o).2 = 1)
    ∧ ((∃ e, o.first = .error e) → (∃ e1, o.strict 0 = .error e1) →
        (generate_json_format_run st o).2 = 2)
    ∧ ((∃ r, o.first = .ok r) → (generate_json_format_run st o).2 = 0)
    ∧ ((∃ e, o.first = .error e) → (∃ e1, o.strict 0 = .error e1) →
        (∃ e2, o.strict 1 = .error e2) →
        (generate_json_format_run st o).1.json_prompt = some (create_fallback_json st)) := by
  refine ⟨?_, ?_, ?_, ?_, ?_⟩
  · unfold generate_json_format_run
    cases o.first <;> cases h1 : o.strict 0 <;> cases h2 : o.strict 1 <;>
      exact ⟨_, rfl, rfl, rfl, rfl⟩
  · rintro ⟨e, he⟩ ⟨r, hr⟩
    unfold generate_json_format_run
    rw [he, hr]
  · rintro ⟨e, he⟩ ⟨e1, h1⟩
    unfold generate_json_format_run
    rw [he, h1]
    cases o.strict 1 <;> rfl
  · rintro ⟨r, hr⟩
    unfold generate_json_format_run
    rw [hr]
  · rintro ⟨e, he⟩ ⟨e1, h1⟩ ⟨e2, h2⟩
    unfold generate_json_format_run
    rw [he, h1, h2]

/-- C5 counterexample: with the first call and both strict attempts
failing, the branch makes 2 calls against the strict instance, not 1. -/
theorem c5_counterexample :
    (∃ e, exJsonAllFail.first = .error e)
    ∧ (generate_json_format_run exStateAfterConcept exJsonAllFail).2 = 2
    ∧ (2 : ℕ) ≠ 1 := by
  refine ⟨⟨"timeout", rfl⟩, rfl, by decide⟩

/-- C5 witness: the fallback document and key-completeness at a concrete
state under an all-failing oracle. -/
theorem c5_witness :
    (∃ j, (generate_json_format_run exStateAfterConcept exJsonAllFail).1.json_prompt = some j
        ∧ objHasKey j "prompt" = true
        ∧ objHasKey j "negative_prompt" = true
        ∧ objHasKey j "config" = true)
    ∧ (generate_json_format_run exStateAfterConcept exJsonAllFail).1.json_prompt
        = some (create_fallback_json exStateAfterConcept) := by
  have h := c5_claim exStateAfterConcept exJsonAllFail
  exact ⟨h.1, h.2.2.2.2 ⟨_, rfl⟩ ⟨_, rfl⟩ ⟨_, rfl⟩⟩




/- ---------------------------------------------------------------------
Helper lemma: String-level attribute round-trip
--------------------------------------------------------------------- -/

/-- String-level escape/unescape round-trip for attribute values. -/
theorem unescape_escape_attrib (s : String) :
    unescape_attrib (escape_attrib s) = s := by
  have h : (unescape_attrib (escape_attrib s)).data = s.data := by
    simp [unescape_attrib, escape_attrib, unescapeChars_escapeWith]
  exact String.ext h

/- ---------------------------------------------------------------------
C10 — extract_output_state coalescing
--------------------------------------------------------------------- -/

/-- C10: for both the plain-mapping branch and the typed-record branch
of `extract_output_state`, no output field is ever absent (the output
record is total by construction): a missing `json_prompt` becomes the
empty object, missing `xml_prompt` / `natural_language_prompt` become
the empty string, missing notes become the empty list (mapping branch),
a missing quality score becomes 0, and `saved_dir` is always the empty
string; and because Python `or` coalesces falsy values, a state whose
quality score is a genuine 0.0 extracts to exactly the same output as
one whose score is absent. -/
theorem c10_claim :
    (∀ d : FinalStateDict,
      (d.json_prompt = none → (extract_output_state_dict d).json_prompt = [])
      ∧ (d.xml_prompt = none → (extract_output_state_dict d).xml_prompt = "")
      ∧ (d.natural_language_prompt = none →
          (extract_output_state_dict d).natural_language_prompt = "")
      ∧ (d.enhancement_quality_score = none → (extract_output_state_dict d).quality_score = 0)
      ∧ (d.enhancement_notes = none → (extract_output_state_dict d).enhancement_notes = [])
      ∧ (extract_output_state_dict d).saved_dir = ""
      ∧ extract_output_state_dict { d with enhancement_quality_score := some 0 }
          = extract_output_state_dict { d with enhancement_quality_score := none })
    ∧ (∀ s : VideoPromptState,
      (s.json_prompt = none → (extract_output_state s).json_prompt = [])
      ∧ (s.xml_prompt = none → (extract_output_state s).xml_prompt = "")
      ∧ (s.natural_language_prompt = none →
          (extract_output_state s).natural_language_prompt = "")
      ∧ (s.enhancement_quality_score = none → (extract_output_state s).quality_score = 0)
      ∧ (extract_output_state s).saved_dir = ""
      ∧ extract_output_state { s with enhancement_quality_score := some 0 }
          = extract_output_state { s with enhancement_quality_score := none }) := by
  constructor
  · intro d
    refine ⟨fun h => ?_, fun h => ?_, fun h => ?_, fun h => ?_, fun h => ?_, rfl, ?_⟩ <;>
      simp [extract_output_state_dict, pyOrObj, pyOrS, pyOrQ, *]
  · intro s
    refine ⟨fun h => ?_, fun h => ?_, fun h => ?_, fun h => ?_, rfl, ?_⟩ <;>
      simp [extract_output_state, pyOrObj, pyOrS, pyOrQ, *]

/-- C10 witness: the coalescing defaults at the all-absent mapping and
the indistinguishability of a 0.0 score from an absent one. -/
theorem c10_witness :
    (extract_output_state_dict exDictEmpty).json_prompt = []
    ∧ (extract_output_state_dict exDictEmpty).xml_prompt = ""
    ∧ (extract_output_state_dict exDictEmpty).natural_language_prompt = ""
    ∧ (extract_output_state_dict exDictEmpty).quality_score = 0
    ∧ (extract_output_state_dict exDictEmpty).enhancement_notes = []
    ∧ (extract_output_state_dict exDictEmpty).saved_dir = ""
    ∧ extract_output_state_dict { exDictEmpty with enhancement_quality_score := some 0 }
        = extract_output_state_dict { exDictEmpty with enhancement_quality_score := none }
    ∧ (extract_output_state exStateAfterConcept).saved_dir = "" := by
  obtain ⟨h1, h2, h3, h4, h5, h6, h7⟩ := c10_claim.1 exDictEmpty
  exact ⟨h1 rfl, h2 rfl, h3 rfl, h4 rfl, h5 rfl, h6, h7, (c10_claim.2 exStateAfterConcept).2.2.2.2.1⟩




/- ---------------------------------------------------------------------
C3 — XML branch: declaration prefix, reparse, verbatim attributes
--------------------------------------------------------------------- -/

set_option maxRecDepth 100000 in
/-- C3: whenever the deterministic XML-construction path succeeds (the
emitted document passes the safe-parser validation `safeParseOk`), the
stored string is the constructed document, it starts with the XML
declaration, reparsing it raises no error, and each of the five
constructed attributes (`movement`, `angle`, `lens` on `<camera>`;
`aesthetic`, `rendering` on `<style>`) occurs in the document as the
escaped value between quote delimiters — the escaped value contains no
raw quote or `<`, and unescaping it (what a conforming parser does)
returns the corresponding `generation_config` field verbatim. -/
theorem c3_claim (st : VideoPromptState)
    (h : safeParseOk (xmlFinal st) = true) :
    (generate_xml_format st).xml_prompt = some (xmlFinal st)
    ∧ (∃ rest, (xmlFinal st).data = xmlDecl.data ++ rest)
    ∧ safeParseOk (xmlFinal st) = true
    ∧ (∃ pre mid post, (xmlFinal st).data
        = pre ++ (attrStr "movement" (st.config.getD {}).camera.movement).data
          ++ (attrStr "angle" (st.config.getD {}).camera.angle).data
          ++ (attrStr "lens" (st.config.getD {}).camera.lens).data
          ++ mid
          ++ (attrStr "aesthetic" (st.config.getD {}).style.aesthetic).data
          ++ (attrStr "rendering" (st.config.getD {}).style.rendering).data
          ++ post)
    ∧ unescape_attrib (escape_attrib (st.config.getD {}).camera.movement)
        = (st.config.getD {}).camera.movement
    ∧ unescape_attrib (escape_attrib (st.config.getD {}).camera.angle)
        = (st.config.getD {}).camera.angle
    ∧ unescape_attrib (escape_attrib (st.config.getD {}).camera.lens)
        = (st.config.getD {}).camera.lens
    ∧ unescape_attrib (escape_attrib (st.config.getD {}).style.aesthetic)
        = (st.config.getD {}).style.aesthetic
    ∧ unescape_attrib (escape_attrib (st.config.getD {}).style.rendering)
        = (st.config.getD {}).style.rendering
    ∧ (∀ s : String, '"' ∉ (escape_attrib s).data ∧ '<' ∉ (escape_attrib s).data) := by
  refine ⟨by simp [generate_xml_format, h], ⟨("\n" ++ xmlBody st).data, ?_⟩, h,
    ⟨xmlDecl.data ++ "\n".data ++ "<prompt>".data ++ "<description>".data
        ++ (escape_cdata (xmlDescText st)).data ++ "</description>".data
        ++ "<negative>".data ++ (escape_cdata (xmlNegText st)).data
        ++ "</negative>".data ++ "<camera".data,
      ">".data ++ "Standard camera setup with natural framing".data
        ++ "</camera>".data ++ "<style".data,
      ">".data ++ "Clean, professional visual style with natural lighting".data
        ++ "</style>".data ++ "</prompt>".data, ?_⟩,
    unescape_escape_attrib _, unescape_escape_attrib _, unescape_escape_attrib _,
    unescape_escape_attrib _, unescape_escape_attrib _,
    fun s => ⟨quot_not_mem_escapeWith s.data, lt_not_mem_escapeWith s.data⟩⟩
  · simp [xmlFinal, String.data_append]
  · simp [xmlFinal, xmlBody, String.data_append, List.append_assoc]

set_option maxRecDepth 1000000 in
/-- C3 witness: the round-trip at a concrete state whose document passes
validation. -/
theorem c3_witness :
    safeParseOk (xmlFinal exStateAfterConcept) = true
    ∧ (generate_xml_format exStateAfterConcept).xml_prompt
        = some (xmlFinal exStateAfterConcept)
    ∧ unescape_attrib (escape_attrib (exStateAfterConcept.config.getD {}).camera.movement)
        = (exStateAfterConcept.config.getD {}).camera.movement := by
  have hp : safeParseOk (xmlFinal exStateAfterConcept) = true := by decide
  have h := c3_claim exStateAfterConcept hp
  exact ⟨hp, h.1, h.2.2.2.2.1⟩




/- ---------------------------------------------------------------------
C1 — entry-point guard and failure surface
--------------------------------------------------------------------- -/

/-- C1 (amended): for every input whose trimmed value is empty,
`enhance_prompt` raises the input error before any capability call is
made (zero calls); for every input whose trimmed value is non-empty,
the pipeline itself cannot fail and a result is returned whenever the
persistence sink succeeds — but if the sink raises, the exception is
wrapped and re-raised as `RuntimeError("Failed to enhance prompt: ...")`.
(As stated the claim is false: the entry point does not "never throw"
for non-empty input; its own docstring documents the `RuntimeError`;
see `c1_counterexample`.) -/
theorem c1_claim (p : String) (o : FullOracle) :
    (pyStrip p = "" →
      enhance_prompt_run p o = (.error "User prompt cannot be empty", 0))
    ∧ (pyStrip p ≠ "" →
        (∀ dir, o.persist = .ok dir →
          ∃ out, (enhance_prompt_run p o).1 = .ok out ∧ out.saved_dir = dir)
        ∧ (∀ e, o.persist = .error e →
            (enhance_prompt_run p o).1 = .error ("Failed to enhance prompt: " ++ e))) := by
  constructor
  · intro h
    simp [enhance_prompt_run, h]
  · intro h
    constructor
    · intro dir hdir
      refine ⟨{ extract_output_state (runPipeline (create_input_state (pyStrip p)) o.pipeline)
                  with saved_dir := dir }, ?_, rfl⟩
      simp [enhance_prompt_run, h, hdir]
    · intro e he
      simp [enhance_prompt_run, h, he]

/-- C1 counterexample: a non-empty prompt on which every capability call
succeeds but the persistence sink fails: `enhance_prompt` raises a
wrapped runtime error instead of returning a result. -/
theorem c1_counterexample :
    pyStrip "A cat" ≠ ""
    ∧ (enhance_prompt_run "A cat" exFullOraclePersistFail).1
        = .error ("Failed to enhance prompt: disk full") := by
  exact ⟨by decide, rfl⟩

/-- C1 witness: the guard at a whitespace-only prompt (error, zero
capability calls) and the success case at a non-empty prompt with a
working sink. -/
theorem c1_witness :
    enhance_prompt_run "   " exFullOraclePersistOk = (.error "User prompt cannot be empty", 0)
    ∧ ∃ out, (enhance_prompt_run "A cat" exFullOraclePersistOk).1 = .ok out
        ∧ out.saved_dir = "outdir" := by
  constructor
  · exact (c1_claim "   " exFullOraclePersistOk).1 (by decide)
  · exact ((c1_claim "A cat" exFullOraclePersistOk).2 (by decide)).1 "outdir" rfl


end Veo3
